import Mathlib

/-!
Verification of the crop_recommendation repository's prediction-serving
specification against the code.

The repository's visible sources are the Node/Express proxy
(`backend/server.js`) and the React front end. The prediction service
itself (FastAPI: validation, feature engineering, predictor, batch
coordinator, retrain orchestrator) is documented by the repository's
Readme and Dockerfile but its Python sources are not present, so those
components are modelled from the specification, while the proxy endpoint
`/api/recommend` is embedded directly from `backend/server.js`.

Numeric values are modelled as rationals; all arithmetic the claims need
(range checks, means, products, division by a sum) is exact.
-/

namespace Crop

/-! ## Data model (spec §3) -/

/-- Modelled from the spec: `RawSample` — seven named numeric fields
(N, P, K, temperature, humidity, ph, rainfall). The Python schema module
that declares it is not in the repository sources. -/
structure RawSample where
  N : ℚ
  P : ℚ
  K : ℚ
  temperature : ℚ
  humidity : ℚ
  ph : ℚ
  rainfall : ℚ
deriving DecidableEq, Repr

/-- Modelled from the spec: the 13-field `EngineeredFeatureVector` —
the 7 raw fields plus 6 derived ones. -/
structure EngineeredFeatureVector where
  N : ℚ
  P : ℚ
  K : ℚ
  temperature : ℚ
  humidity : ℚ
  ph : ℚ
  rainfall : ℚ
  NPK_avg : ℚ
  THI : ℚ
  rainfall_level : ℚ
  ph_category : ℚ
  temp_rainfall_interaction : ℚ
  ph_rainfall_interaction : ℚ
deriving DecidableEq, Repr

/-- Modelled from the spec: error taxonomy of §7. The Python module that
declares these exception classes is not in the repository sources. -/
inductive ServiceError where
  | validationError (field : String)
  | batchTooLargeError (size : Nat)
  | inferenceError (msg : String)
  | modelLoadError
  | retrainInProgressError
  | trainingFailedError
deriving DecidableEq, Repr

/-- Modelled from the spec: `ModelSnapshot`, the immutable bundle of
classifier parameters (one weight row per class label), training metrics
(held-out accuracy) and the class label list. The concrete classifier is
absent from the sources; a data-driven linear scorer stands in for its
parameters so that snapshots are first-class comparable values. -/
structure ModelSnapshot where
  labels : List String
  weights : List (List ℚ)
  accuracy : ℚ
deriving DecidableEq, Repr

/-! ## Feature Engineer (spec §4.1, modelled from the spec) -/

/-- Modelled from the spec: per-field validation ranges; returns the first
offending field name, in declared field order, or `none` when every field
is within range. Out-of-range values are rejected, never clamped. -/
def validate (r : RawSample) : Option String :=
  if r.N < 0 ∨ 200 < r.N then some "N"
  else if r.P < 0 ∨ 200 < r.P then some "P"
  else if r.K < 0 ∨ 250 < r.K then some "K"
  else if r.temperature < 0 ∨ 50 < r.temperature then some "temperature"
  else if r.humidity < 0 ∨ 100 < r.humidity then some "humidity"
  else if r.ph < 0 ∨ 14 < r.ph then some "ph"
  else if r.rainfall < 0 ∨ 400 < r.rainfall then some "rainfall"
  else none

/-- The spec-side predicate: field `f` of `r` is outside its declared range
(N∈[0,200], P∈[0,200], K∈[0,250], temperature∈[0,50], humidity∈[0,100],
ph∈[0,14], rainfall∈[0,400]). -/
def fieldOutOfRange (r : RawSample) (f : String) : Prop :=
  (f = "N" ∧ (r.N < 0 ∨ 200 < r.N)) ∨
  (f = "P" ∧ (r.P < 0 ∨ 200 < r.P)) ∨
  (f = "K" ∧ (r.K < 0 ∨ 250 < r.K)) ∨
  (f = "temperature" ∧ (r.temperature < 0 ∨ 50 < r.temperature)) ∨
  (f = "humidity" ∧ (r.humidity < 0 ∨ 100 < r.humidity)) ∨
  (f = "ph" ∧ (r.ph < 0 ∨ 14 < r.ph)) ∨
  (f = "rainfall" ∧ (r.rainfall < 0 ∨ 400 < r.rainfall))

/-- `r` satisfies the RawSample invariant: every field within its range. -/
def rawSampleValid (r : RawSample) : Prop :=
  (0 ≤ r.N ∧ r.N ≤ 200) ∧ (0 ≤ r.P ∧ r.P ≤ 200) ∧ (0 ≤ r.K ∧ r.K ≤ 250) ∧
  (0 ≤ r.temperature ∧ r.temperature ≤ 50) ∧ (0 ≤ r.humidity ∧ r.humidity ≤ 100) ∧
  (0 ≤ r.ph ∧ r.ph ≤ 14) ∧ (0 ≤ r.rainfall ∧ r.rainfall ≤ 400)

instance (r : RawSample) (f : String) : Decidable (fieldOutOfRange r f) := by
  unfold fieldOutOfRange; infer_instance

instance (r : RawSample) : Decidable (rawSampleValid r) := by
  unfold rawSampleValid; infer_instance

/-- Modelled from the spec: ordinal rainfall category Low/Medium/High/VeryHigh
encoded numerically by fixed thresholds (the exact boundary constants are not
given by the source documentation; fixed representatives are used). -/
def rainfallLevel (x : ℚ) : ℚ :=
  if x < 50 then 0 else if x < 100 then 1 else if x < 200 then 2 else 3

/-- Modelled from the spec: ordinal pH category Acidic/Neutral/Alkaline by
fixed pH thresholds (exact boundaries unspecified; fixed representatives). -/
def phCategory (x : ℚ) : ℚ :=
  if x < 6.5 then 0 else if x ≤ 7.5 then 1 else 2

/-- Modelled from the spec: THI, a fixed arithmetic function of temperature
and humidity (the exact formula is unspecified by the source documentation;
the standard temperature-humidity index is used as the fixed representative). -/
def thi (t h : ℚ) : ℚ :=
  (4 / 5) * t + (h / 100) * (t - 14.4) + 46.4

/-- Modelled from the spec: `engineer(raw) -> EngineeredFeatureVector`,
total and side-effect-free: the 7 raw fields plus NPK_avg = mean(N,P,K),
THI, rainfall_level, ph_category, temperature×rainfall and ph×rainfall. -/
def engineer (r : RawSample) : EngineeredFeatureVector where
  N := r.N
  P := r.P
  K := r.K
  temperature := r.temperature
  humidity := r.humidity
  ph := r.ph
  rainfall := r.rainfall
  NPK_avg := (r.N + r.P + r.K) / 3
  THI := thi r.temperature r.humidity
  rainfall_level := rainfallLevel r.rainfall
  ph_category := phCategory r.ph
  temp_rainfall_interaction := r.temperature * r.rainfall
  ph_rainfall_interaction := r.ph * r.rainfall

/-- The 13 ordered numeric fields of an engineered vector, as the classifier
consumes them. -/
def features (v : EngineeredFeatureVector) : List ℚ :=
  [v.N, v.P, v.K, v.temperature, v.humidity, v.ph, v.rainfall,
   v.NPK_avg, v.THI, v.rainfall_level, v.ph_category,
   v.temp_rainfall_interaction, v.ph_rainfall_interaction]

/-! ## Predictor (spec §4.3, modelled from the spec) -/

/-- Dot product of two coordinate lists (extra coordinates are ignored). -/
def dot : List ℚ → List ℚ → ℚ
  | [], _ => 0
  | _, [] => 0
  | a :: as, b :: bs => a * b + dot as bs

/-- Modelled from the spec: the classifier's raw per-class scores for an
engineered feature vector — one nonnegative score per weight row. -/
def rawScores (snap : ModelSnapshot) (fv : List ℚ) : List ℚ :=
  snap.weights.map (fun w => max 0 (dot w fv))

/-- Modelled from the spec: `PredictionResult` — predicted crop label,
confidence (probability of the top class) and the full class→probability
mapping. -/
structure PredictionResult where
  predicted_crop : String
  confidence : ℚ
  all_probabilities : List (String × ℚ)
deriving DecidableEq, Repr

/-- Arg-max over labelled probabilities: highest probability wins; on
exactly equal probabilities the lexicographically smaller label wins. -/
def argmaxPair : List (String × ℚ) → Option (String × ℚ)
  | [] => none
  | (l, p) :: rest =>
    match argmaxPair rest with
    | none => some (l, p)
    | some (l2, p2) =>
      if p < p2 ∨ (p2 = p ∧ l2 < l) then some (l2, p2) else some (l, p)

/-- A snapshot is schema-consistent: one weight row per class label, and
the class list is non-empty. Artifacts violating this are rejected at load
time by the Model Store, so the Predictor only ever sees consistent ones. -/
def wfSnapshot (snap : ModelSnapshot) : Prop :=
  snap.labels.length = snap.weights.length ∧ snap.labels ≠ []

instance (snap : ModelSnapshot) : Decidable (wfSnapshot snap) := by
  unfold wfSnapshot; infer_instance

/-- Modelled from the spec: the Predictor against one snapshot.
Steps: validate → engineer → classifier inference → normalize into a
probability simplex over the label set → arg-max with lexicographic
tie-break. Fails with `ValidationError` on bad input and `InferenceError`
on internal numeric failure (no usable classifier output). -/
def predictSnap (snap : ModelSnapshot) (r : RawSample) :
    Except ServiceError PredictionResult :=
  match validate r with
  | some f => Except.error (ServiceError.validationError f)
  | none =>
    let scores := rawScores snap (features (engineer r))
    if scores.sum = 0 then
      Except.error (ServiceError.inferenceError "model produced no usable output")
    else
      let pairs := snap.labels.zip (scores.map (fun x => x / scores.sum))
      match argmaxPair pairs with
      | none => Except.error (ServiceError.inferenceError "empty class list")
      | some lp =>
        Except.ok { predicted_crop := lp.1, confidence := lp.2,
                    all_probabilities := pairs }

/-- Modelled from the spec: `predict` — validation happens first (before
any model state is consulted); then inference reads `ModelStore.current()`,
failing with `InferenceError` when no model is loaded. -/
def predict (store : Option ModelSnapshot) (r : RawSample) :
    Except ServiceError PredictionResult :=
  match validate r with
  | some f => Except.error (ServiceError.validationError f)
  | none =>
    match store with
    | none => Except.error (ServiceError.inferenceError "model not loaded")
    | some snap => predictSnap snap r

/-! ## Batch Coordinator (spec §4.4, modelled from the spec) -/

/-- Modelled from the spec: the batch size ceiling. -/
def MAX_BATCH_SIZE : Nat := 100

/-- Modelled from the spec: `predict_batch` — fails wholesale with
`BatchTooLargeError` above the 100-item ceiling, before any item is
processed; within the bound it returns one independent per-item outcome
per input, in input order. -/
def predictBatch (store : Option ModelSnapshot) (items : List RawSample) :
    Except ServiceError (List (Except ServiceError PredictionResult)) :=
  if MAX_BATCH_SIZE < items.length then
    Except.error (ServiceError.batchTooLargeError items.length)
  else
    Except.ok (items.map (predict store))

/-! ## Retrain Orchestrator and Model Store (spec §4.2, §4.5, modelled) -/

/-- Modelled from the spec: the retrain job lifecycle states. -/
inductive JobPhase where
  | Idle
  | Training
  | Validating
  | Publishing
  | Failed
deriving DecidableEq, Repr

/-- Modelled from the spec: serving-side state — the Model Store's current
snapshot, the orchestrator's job phase, the candidate snapshot a retrain
produced, and the configured minimum acceptable accuracy threshold. -/
structure ServerState where
  store : Option ModelSnapshot
  phase : JobPhase
  candidate : Option ModelSnapshot
  minAccuracy : ℚ
deriving DecidableEq, Repr

/-- Modelled from the spec: `ModelStore.current()` — the latest fully
published snapshot, if a model is loaded. -/
def currentModel (st : ServerState) : Option ModelSnapshot :=
  st.store

/-- Modelled from the spec: a retrain request is accepted only when no job
is in flight; a second request while one is in flight is rejected with
`RetrainInProgressError`, not queued. -/
def requestRetrain (st : ServerState) : Except ServiceError ServerState :=
  if st.phase = JobPhase.Training ∨ st.phase = JobPhase.Validating ∨
     st.phase = JobPhase.Publishing then
    Except.error ServiceError.retrainInProgressError
  else
    Except.ok { st with phase := JobPhase.Training }

/-- Modelled from the spec: training finishes and hands its candidate
snapshot to the Validating step. -/
def completeTraining (st : ServerState) (cand : ModelSnapshot) : ServerState :=
  { st with phase := JobPhase.Validating, candidate := some cand }

/-- Modelled from the spec: the Validating step — if the candidate's
held-out accuracy falls below the configured minimum acceptable threshold
the candidate is discarded and the job transitions to `Failed`; otherwise
the job moves on to `Publishing`. -/
def validateCandidate (st : ServerState) : ServerState :=
  match st.candidate with
  | none => { st with phase := JobPhase.Failed }
  | some cand =>
    if cand.accuracy < st.minAccuracy then
      { st with phase := JobPhase.Failed, candidate := none }
    else
      { st with phase := JobPhase.Publishing }

/-- Modelled from the spec: `Publishing` calls `ModelStore.publish`,
atomically replacing the current snapshot wholesale. -/
def publishCandidate (st : ServerState) : ServerState :=
  match st.candidate with
  | none => { st with phase := JobPhase.Failed }
  | some cand =>
    { st with store := some cand, phase := JobPhase.Idle, candidate := none }

/-- Modelled from the spec: one full background retrain attempt whose
training stage produced candidate `cand`: Validating, then Publishing only
when validation passed. -/
def runRetrainJob (st : ServerState) (cand : ModelSnapshot) : ServerState :=
  let st2 := validateCandidate (completeTraining st cand)
  if st2.phase = JobPhase.Publishing then publishCandidate st2 else st2

/-! ## Service Façade HTTP statuses (spec §6, modelled from the spec) -/

/-- Modelled from the spec: the prediction service's HTTP status for each
error of the taxonomy — 4xx for caller-fixable errors (validation, batch
too large), 409 for a retrain already in progress, 5xx for server-side
conditions (inference failure, model unavailable). -/
def errorStatus : ServiceError → Nat
  | ServiceError.validationError _ => 422
  | ServiceError.batchTooLargeError _ => 413
  | ServiceError.inferenceError _ => 503
  | ServiceError.modelLoadError => 503
  | ServiceError.retrainInProgressError => 409
  | ServiceError.trainingFailedError => 500

/-- The hundreds digit of an HTTP status: 4 for 4xx, 5 for 5xx. -/
def statusClass (s : Nat) : Nat := s / 100

/-! ## The proxy `/api/recommend` endpoint, from `backend/server.js` -/

/-- A JSON-like value, as the proxy sees axios response bodies. -/
inductive JVal where
  | jnull
  | jbool (b : Bool)
  | jnum (q : ℚ)
  | jstr (s : String)
  | jarr (elems : List JVal)
  | jobj (fields : List (String × JVal))

/-- JavaScript truthiness of a value: null, false, 0 and the empty string
are falsy; objects and arrays are always truthy. -/
def jsTruthy : JVal → Bool
  | JVal.jnull => false
  | JVal.jbool b => b
  | JVal.jnum q => if q = 0 then false else true
  | JVal.jstr s => if s = "" then false else true
  | JVal.jarr _ => true
  | JVal.jobj _ => true

/-- First binding of key `k` in an association list. -/
def lookupField : List (String × JVal) → String → Option JVal
  | [], _ => none
  | (k2, v) :: rest, k => if k2 = k then some v else lookupField rest k

/-- JavaScript property access `v[k]`: defined only on objects, `undefined`
(here `none`) everywhere else. -/
def getField (v : JVal) (k : String) : Option JVal :=
  match v with
  | JVal.jobj fs => lookupField fs k
  | _ => none

/-- Truthiness of a possibly-undefined value: `undefined` is falsy. -/
def jsTruthyOpt : Option JVal → Bool
  | none => false
  | some v => jsTruthy v

/-- The outcome of the proxy's axios call to the model service, following
axios semantics: a resolved 2xx response with a body; a rejection carrying
the model's error response (`error.response`); a rejection with a request
but no response (`error.request`); or any other thrown error. -/
inductive UpstreamOutcome where
  | success (data : JVal)
  | httpError (status : Nat) (data : JVal)
  | noResponse
  | thrown (msg : String)

/-- An HTTP response the proxy sends back to its caller. -/
structure ProxyResponse where
  status : Nat
  body : JVal

/-- The `{message, details}` error body `server.js` builds. -/
def errBody (message details : String) : JVal :=
  JVal.jobj [("message", JVal.jstr message), ("details", JVal.jstr details)]

/-- The message of the error `server.js` throws when the model's body lacks
a usable `predicted_crop`. -/
def missingKeyMsg : String :=
  "Model response is valid but missing the \x27predicted_crop\x27 key."

/-- `app.post(\x27/api/recommend\x27)` from `backend/server.js`, lines
56-104: on a resolved model response, forward the entire body with
status 200 unless `!response.data || !response.data.predicted_crop`, in
which case an Error is thrown and lands in the catch's general branch
(500); if the model responded with an error status, reply 502; if no
response was received, reply 504; any other thrown error yields 500 with
the error's message as `details`. -/
def recommendHandler : UpstreamOutcome → ProxyResponse
  | UpstreamOutcome.success data =>
    if !(jsTruthy data) || !(jsTruthyOpt (getField data "predicted_crop")) then
      { status := 500,
        body := errBody "An internal server error occurred." missingKeyMsg }
    else
      { status := 200, body := data }
  | UpstreamOutcome.httpError status _ =>
    { status := 502,
      body := errBody "The prediction service is reporting an error."
        ("Model service responded with status: " ++ toString status ++ ".") }
  | UpstreamOutcome.noResponse =>
    { status := 504,
      body := errBody "Could not connect to the prediction service."
        "No response was received from the model\x27s server. It might be offline." }
  | UpstreamOutcome.thrown msg =>
    { status := 500,
      body := errBody "An internal server error occurred." msg }

/-! ## Concrete inputs used to instantiate the theorems -/

/-- The spec's documented example request (all fields in range). -/
def wValidSample : RawSample :=
  { N := 90, P := 42, K := 43, temperature := 20.87, humidity := 82,
    ph := 6.5, rainfall := 202.9 }

/-- An out-of-range sample: N = 300 exceeds its declared bound 200. -/
def wInvalidSample : RawSample :=
  { N := 300, P := 42, K := 43, temperature := 20.87, humidity := 82,
    ph := 6.5, rainfall := 202.9 }

/-- A small schema-consistent two-class snapshot. -/
def wSnap : ModelSnapshot :=
  { labels := ["maize", "rice"], weights := [[1], [2]], accuracy := 98 / 100 }

/-- The prediction the snapshot `wSnap` yields on `wValidSample`. -/
def wResult : PredictionResult :=
  { predicted_crop := "rice", confidence := 2 / 3,
    all_probabilities := [("maize", 1 / 3), ("rice", 2 / 3)] }

/-- Six batch items: five valid, one invalid at index 2. -/
def wBatch6 : List RawSample :=
  [wValidSample, wValidSample, wInvalidSample,
   wValidSample, wValidSample, wValidSample]

/-- A batch one item above the ceiling. -/
def wBatch101 : List RawSample := List.replicate 101 wValidSample

/-- A server state with a retrain job currently in `Training`. -/
def wBusyState : ServerState :=
  { store := some wSnap, phase := JobPhase.Training, candidate := none,
    minAccuracy := 9 / 10 }

/-- An idle server state with a published snapshot. -/
def wIdleState : ServerState :=
  { store := some wSnap, phase := JobPhase.Idle, candidate := none,
    minAccuracy := 9 / 10 }

/-- A retrain candidate whose held-out accuracy regressed below threshold. -/
def wWeakCand : ModelSnapshot :=
  { labels := ["rice"], weights := [[1]], accuracy := 1 / 2 }

/-- A well-formed upstream success body. -/
def wGoodBody : JVal :=
  JVal.jobj [("predicted_crop", JVal.jstr "rice"),
             ("confidence", JVal.jnum (95 / 100))]

/-- An upstream success body lacking the `predicted_crop` key. -/
def wNoKeyBody : JVal := JVal.jobj [("crop", JVal.jstr "rice")]

/-! ## Spec-side predicates -/

/-- Spec-side statement of the arg-max requirement: `(l, p)` is an entry
of the mapping, every other entry has strictly smaller probability, or an
equal probability and a label that is lexicographically at least `l`. -/
def isArgmax (pairs : List (String × ℚ)) (l : String) (p : ℚ) : Prop :=
  (l, p) ∈ pairs ∧ ∀ x ∈ pairs, x.2 < p ∨ (x.2 = p ∧ l ≤ x.1)

/-! ## Helper lemmas -/

lemma sum_map_div (xs : List ℚ) (s : ℚ) :
    (xs.map (fun x => x / s)).sum = xs.sum / s := by
  induction xs with
  | nil => simp
  | cons a as ih => simp [ih, add_div]

lemma argmaxPair_ne_none (hd : String × ℚ) (tl : List (String × ℚ)) :
    argmaxPair (hd :: tl) ≠ none := by
  obtain ⟨l, p⟩ := hd
  unfold argmaxPair
  cases argmaxPair tl with
  | none => simp
  | some lp2 =>
    obtain ⟨l2, p2⟩ := lp2
    split
    · simp
    · split <;> simp

lemma argmaxPair_spec (pairs : List (String × ℚ)) (l : String) (p : ℚ)
    (h : argmaxPair pairs = some (l, p)) : isArgmax pairs l p := by
  induction pairs generalizing l p with
  | nil => simp [argmaxPair] at h
  | cons hd tl ih =>
    obtain ⟨l0, p0⟩ := hd
    cases htl : argmaxPair tl with
    | none =>
      have htlnil : tl = [] := by
        cases tl with
        | nil => rfl
        | cons a b => exact absurd htl (argmaxPair_ne_none a b)
      subst htlnil
      simp only [argmaxPair, Option.some.injEq, Prod.mk.injEq] at h
      obtain ⟨rfl, rfl⟩ := h
      exact ⟨List.mem_singleton.mpr rfl, by simp⟩
    | some lp2 =>
      obtain ⟨l2, p2⟩ := lp2
      have hspec2 := ih l2 p2 htl
      simp only [argmaxPair, htl] at h
      split at h
      · rename_i hc
        simp only [Option.some.injEq, Prod.mk.injEq] at h
        obtain ⟨rfl, rfl⟩ := h
        refine ⟨List.mem_cons_of_mem _ hspec2.1, ?_⟩
        intro x hx
        rcases List.mem_cons.mp hx with hx0 | hxtl
        · subst hx0
          rcases hc with hlt | ⟨heq, hstr⟩
          · exact Or.inl hlt
          · exact Or.inr ⟨heq.symm, le_of_lt (show l2 < l0 from hstr)⟩
        · exact hspec2.2 x hxtl
      · rename_i hc
        simp only [Option.some.injEq, Prod.mk.injEq] at h
        obtain ⟨rfl, rfl⟩ := h
        rw [not_or] at hc
        obtain ⟨hple, hnot2⟩ := hc
        have hp2le : p2 ≤ p0 := not_lt.mp hple
        refine ⟨List.mem_cons_self _ _, ?_⟩
        intro x hx
        rcases List.mem_cons.mp hx with hx0 | hxtl
        · subst hx0
          exact Or.inr ⟨rfl, le_refl _⟩
        · rcases hspec2.2 x hxtl with hxlt | ⟨hxeq, hxle⟩
          · rcases lt_or_eq_of_le hp2le with h2 | h2
            · exact Or.inl (lt_trans hxlt h2)
            · exact Or.inl (h2 ▸ hxlt)
          · rcases lt_or_eq_of_le hp2le with h2 | h2
            · exact Or.inl (by rw [hxeq]; exact h2)
            · have hl0le : l0 ≤ l2 :=
                le_of_not_lt (fun hl => hnot2 ⟨h2, hl⟩)
              exact Or.inr ⟨hxeq.trans h2, le_trans hl0le hxle⟩

lemma rawScores_length (snap : ModelSnapshot) (fv : List ℚ) :
    (rawScores snap fv).length = snap.weights.length := by
  simp [rawScores]

/-! ## Claim theorems -/

/-- C1: for every PredictionResult returned by `predict` (against a
schema-consistent snapshot, as the Model Store guarantees at load time),
the class-to-probability mapping sums to exactly 1 — in particular within
the 1e-6 tolerance — and `predicted_crop` with its confidence is the
arg-max of that mapping, ties broken toward the lexicographically smaller
label name. -/
theorem C1_simplex_and_argmax (snap : ModelSnapshot) (r : RawSample)
    (res : PredictionResult) (hwf : wfSnapshot snap)
    (h : predict (some snap) r = Except.ok res) :
    (res.all_probabilities.map Prod.snd).sum = 1 ∧
    |(res.all_probabilities.map Prod.snd).sum - 1| ≤ 1 / 1000000 ∧
    isArgmax res.all_probabilities res.predicted_crop res.confidence := by
  unfold predict at h
  cases hv : validate r with
  | some f => rw [hv] at h; exact absurd h (by simp)
  | none =>
    rw [hv] at h
    simp only [predictSnap, hv] at h
    split at h
    · exact absurd h (by simp)
    · rename_i hs
      split at h
      · exact absurd h (by simp)
      · rename_i lp heq
        obtain ⟨la, pa⟩ := lp
        simp only [Except.ok.injEq] at h
        subst h
        have hlen : (rawScores snap (features (engineer r))).length
            = snap.labels.length := by
          rw [rawScores_length, hwf.1]
        have hmapsnd :
            ((snap.labels.zip ((rawScores snap (features (engineer r))).map
              (fun x => x / (rawScores snap (features (engineer r))).sum))).map
                Prod.snd)
            = (rawScores snap (features (engineer r))).map
                (fun x => x / (rawScores snap (features (engineer r))).sum) := by
          apply List.map_snd_zip
          rw [List.length_map, hlen]
        have hsum :
            ((snap.labels.zip ((rawScores snap (features (engineer r))).map
              (fun x => x / (rawScores snap (features (engineer r))).sum))).map
                Prod.snd).sum = 1 := by
          rw [hmapsnd, sum_map_div, div_self hs]
        refine ⟨hsum, ?_, ?_⟩
        · rw [hsum]; norm_num
        · exact argmaxPair_spec _ _ _ heq

/-- C2: a RawSample with any field outside its declared range makes
`predict` fail with a `ValidationError` naming an offending field, before
feature engineering and independently of any model state (the value is
rejected, never clamped). -/
theorem C2_out_of_range_rejected (r : RawSample) (h : ¬ rawSampleValid r) :
    ∃ f, validate r = some f ∧ fieldOutOfRange r f ∧
      ∀ store : Option ModelSnapshot,
        predict store r = Except.error (ServiceError.validationError f) := by
  by_cases hN : r.N < 0 ∨ 200 < r.N
  · exact ⟨"N", by simp [validate, hN], Or.inl ⟨rfl, hN⟩,
      fun store => by simp [predict, validate, hN]⟩
  by_cases hP : r.P < 0 ∨ 200 < r.P
  · exact ⟨"P", by simp [validate, hN, hP], Or.inr (Or.inl ⟨rfl, hP⟩),
      fun store => by simp [predict, validate, hN, hP]⟩
  by_cases hK : r.K < 0 ∨ 250 < r.K
  · exact ⟨"K", by simp [validate, hN, hP, hK],
      Or.inr (Or.inr (Or.inl ⟨rfl, hK⟩)),
      fun store => by simp [predict, validate, hN, hP, hK]⟩
  by_cases hT : r.temperature < 0 ∨ 50 < r.temperature
  · exact ⟨"temperature", by simp [validate, hN, hP, hK, hT],
      Or.inr (Or.inr (Or.inr (Or.inl ⟨rfl, hT⟩))),
      fun store => by simp [predict, validate, hN, hP, hK, hT]⟩
  by_cases hH : r.humidity < 0 ∨ 100 < r.humidity
  · exact ⟨"humidity", by simp [validate, hN, hP, hK, hT, hH],
      Or.inr (Or.inr (Or.inr (Or.inr (Or.inl ⟨rfl, hH⟩)))),
      fun store => by simp [predict, validate, hN, hP, hK, hT, hH]⟩
  by_cases hPh : r.ph < 0 ∨ 14 < r.ph
  · exact ⟨"ph", by simp [validate, hN, hP, hK, hT, hH, hPh],
      Or.inr (Or.inr (Or.inr (Or.inr (Or.inr (Or.inl ⟨rfl, hPh⟩))))),
      fun store => by simp [predict, validate, hN, hP, hK, hT, hH, hPh]⟩
  by_cases hR : r.rainfall < 0 ∨ 400 < r.rainfall
  · exact ⟨"rainfall", by simp [validate, hN, hP, hK, hT, hH, hPh, hR],
      Or.inr (Or.inr (Or.inr (Or.inr (Or.inr (Or.inr ⟨rfl, hR⟩))))),
      fun store => by simp [predict, validate, hN, hP, hK, hT, hH, hPh, hR]⟩
  exfalso
  apply h
  rw [not_or] at hN hP hK hT hH hPh hR
  exact ⟨⟨not_lt.mp hN.1, not_lt.mp hN.2⟩, ⟨not_lt.mp hP.1, not_lt.mp hP.2⟩,
    ⟨not_lt.mp hK.1, not_lt.mp hK.2⟩, ⟨not_lt.mp hT.1, not_lt.mp hT.2⟩,
    ⟨not_lt.mp hH.1, not_lt.mp hH.2⟩, ⟨not_lt.mp hPh.1, not_lt.mp hPh.2⟩,
    ⟨not_lt.mp hR.1, not_lt.mp hR.2⟩⟩

/-- C5: `engineer` is a pure deterministic function of the seven raw
fields — two inputs agreeing on every field yield one and the same
13-field engineered vector, so repeated calls on the same input are
identical; no other state enters the derivation. -/
theorem C5_engineer_deterministic (r1 r2 : RawSample)
    (hN : r1.N = r2.N) (hP : r1.P = r2.P) (hK : r1.K = r2.K)
    (hT : r1.temperature = r2.temperature) (hH : r1.humidity = r2.humidity)
    (hPh : r1.ph = r2.ph) (hR : r1.rainfall = r2.rainfall) :
    engineer r1 = engineer r2 := by
  have : r1 = r2 := by cases r1; cases r2; simp_all
  exact congrArg engineer this

/-- C3: a batch above the 100-item ceiling fails wholesale with
`BatchTooLargeError` (no item is processed — no per-item outcome exists at
all); a batch of at most 100 items yields exactly one result per input
item, in input order. -/
theorem C3_batch_ceiling (store : Option ModelSnapshot)
    (items : List RawSample) :
    (MAX_BATCH_SIZE < items.length →
      predictBatch store items =
        Except.error (ServiceError.batchTooLargeError items.length)) ∧
    (items.length ≤ MAX_BATCH_SIZE →
      ∃ rs, predictBatch store items = Except.ok rs ∧
        rs.length = items.length ∧
        ∀ i : Nat, rs[i]? = (items[i]?).map (predict store)) := by
  constructor
  · intro h
    simp [predictBatch, h]
  · intro h
    refine ⟨items.map (predict store), ?_, by simp, fun i => by simp⟩
    simp [predictBatch, Nat.not_lt.mpr h]

/-- C4: within the 100-item bound each batch item is evaluated
independently — the outcome at every index equals `predict` of that item
alone, so one item's `ValidationError` cannot abort or alter any sibling
item's outcome, and successes and failures are distinguishable per index. -/
theorem C4_per_item_isolation (store : Option ModelSnapshot)
    (items : List RawSample) (h : items.length ≤ MAX_BATCH_SIZE) :
    ∃ rs, predictBatch store items = Except.ok rs ∧
      ∀ i : Nat, rs[i]? = (items[i]?).map (predict store) := by
  refine ⟨items.map (predict store), ?_, fun i => by simp⟩
  simp [predictBatch, Nat.not_lt.mpr h]

/-- C6: a retrain whose validated held-out accuracy falls below the
configured minimum acceptable threshold transitions the orchestrator to
`Failed` without publishing: `ModelStore.current()` is unchanged from
before the attempt. -/
theorem C6_failed_retrain_preserves_store (st : ServerState)
    (cand : ModelSnapshot) (h : cand.accuracy < st.minAccuracy) :
    currentModel (runRetrainJob st cand) = currentModel st ∧
    (runRetrainJob st cand).phase = JobPhase.Failed := by
  simp [runRetrainJob, completeTraining, validateCandidate, currentModel, h]

/-- C7: at most one retrain job is in the `Training` state at a time — a
second retrain request arriving while one is in flight is rejected with
`RetrainInProgressError` (HTTP 409) rather than queued: the request
returns an error and produces no new job state. -/
theorem C7_retrain_mutex (st : ServerState)
    (h : st.phase = JobPhase.Training) :
    requestRetrain st = Except.error ServiceError.retrainInProgressError ∧
    errorStatus ServiceError.retrainInProgressError = 409 := by
  constructor
  · simp [requestRetrain, h]
  · rfl

/-- C8 (amended): the prediction-service boundary itself distinguishes
error classes — validation failures map to a 4xx status and inference
failure or an unloaded model to a 5xx status — but the proxy in
`backend/server.js` does not preserve that distinction: every upstream
HTTP error response, 4xx and 5xx alike, is forwarded to the caller as 502
(and an unreachable service as 504). -/
theorem C8_proxy_collapses_classes :
    (∀ f, statusClass (errorStatus (ServiceError.validationError f)) = 4) ∧
    (∀ n, statusClass (errorStatus (ServiceError.batchTooLargeError n)) = 4) ∧
    (∀ m, statusClass (errorStatus (ServiceError.inferenceError m)) = 5) ∧
    statusClass (errorStatus ServiceError.modelLoadError) = 5 ∧
    (∀ (status : Nat) (data : JVal),
      (recommendHandler (UpstreamOutcome.httpError status data)).status = 502) ∧
    (recommendHandler UpstreamOutcome.noResponse).status = 504 :=
  ⟨fun _ => by simp [errorStatus, statusClass],
   fun _ => by simp [errorStatus, statusClass],
   fun _ => by simp [errorStatus, statusClass],
   by simp [errorStatus, statusClass],
   fun _ _ => by simp [recommendHandler],
   by simp [recommendHandler]⟩

/-- C8 counterexample: the claim that the proxy preserves the 4xx/5xx
distinction is false — an upstream validation failure (the modelled
4xx-class status 422) is forwarded by `backend/server.js` as 502, a
5xx-class status. -/
theorem C8_counterexample :
    statusClass (errorStatus (ServiceError.validationError "N")) = 4 ∧
    (recommendHandler (UpstreamOutcome.httpError
      (errorStatus (ServiceError.validationError "N")) JVal.jnull)).status
        = 502 ∧
    ¬ statusClass (recommendHandler (UpstreamOutcome.httpError
        (errorStatus (ServiceError.validationError "N")) JVal.jnull)).status
          = 4 := by
  refine ⟨rfl, rfl, ?_⟩
  intro hcontra
  simp [recommendHandler, statusClass] at hcontra

/-- If property access on the body yields a truthy value, the body is a
JSON object, hence itself truthy. -/
lemma jsTruthy_of_getField (data : JVal) (k : String)
    (h : jsTruthyOpt (getField data k) = true) : jsTruthy data = true := by
  cases data <;> simp [getField, jsTruthyOpt, jsTruthy] at h ⊢

/-- C9 (amended): an upstream success response whose body carries
`predicted_crop` with a truthy value (in particular any non-empty crop
name string) is forwarded by `/api/recommend` unchanged, with HTTP 200
and the model's entire response object as the body. -/
theorem C9_success_passthrough (data : JVal)
    (h : jsTruthyOpt (getField data "predicted_crop") = true) :
    recommendHandler (UpstreamOutcome.success data) =
      { status := 200, body := data } := by
  have hdata := jsTruthy_of_getField data "predicted_crop" h
  simp [recommendHandler, hdata, h]

/-- C9 counterexample: a success body that does contain the key
`predicted_crop` — bound to the empty string, which is falsy in
JavaScript — is not passed through: `server.js` throws on
`!response.data.predicted_crop` and replies 500, not 200. -/
theorem C9_counterexample :
    getField (JVal.jobj [("predicted_crop", JVal.jstr "")]) "predicted_crop"
      = some (JVal.jstr "") ∧
    (recommendHandler (UpstreamOutcome.success
      (JVal.jobj [("predicted_crop", JVal.jstr "")]))).status = 500 := by
  exact ⟨rfl, rfl⟩

/-- C10: a resolved upstream response whose body is empty (null or the
empty string) or lacks the `predicted_crop` key is not forwarded: the
proxy replies HTTP 500 with `message` equal to
"An internal server error occurred." and `details` carrying the thrown
error's message. -/
theorem C10_missing_key_500 (data : JVal)
    (h : getField data "predicted_crop" = none ∨
        data = JVal.jnull ∨ data = JVal.jstr "") :
    recommendHandler (UpstreamOutcome.success data) =
      { status := 500,
        body := errBody "An internal server error occurred." missingKeyMsg } ∧
    getField (recommendHandler (UpstreamOutcome.success data)).body "details"
      = some (JVal.jstr missingKeyMsg) := by
  have h1 : recommendHandler (UpstreamOutcome.success data) =
      { status := 500,
        body := errBody "An internal server error occurred." missingKeyMsg } := by
    rcases h with h | h | h
    · simp [recommendHandler, h, jsTruthyOpt]
    · subst h; simp [recommendHandler, jsTruthy]
    · subst h; simp [recommendHandler, jsTruthy]
  refine ⟨h1, ?_⟩
  rw [h1]
  rfl

/-! ## Witnesses -/

/-- C1 witness at the documented example sample and a concrete snapshot. -/
theorem C1_witness :
    wfSnapshot wSnap ∧
    predict (some wSnap) wValidSample = Except.ok wResult ∧
    ((wResult.all_probabilities.map Prod.snd).sum = 1 ∧
     |(wResult.all_probabilities.map Prod.snd).sum - 1| ≤ 1 / 1000000 ∧
     isArgmax wResult.all_probabilities wResult.predicted_crop
       wResult.confidence) := by
  have hwf : wfSnapshot wSnap := by
    constructor <;> simp [wSnap]
  have hok : predict (some wSnap) wValidSample = Except.ok wResult := by
    norm_num [predict, predictSnap, validate, wValidSample, wSnap, wResult,
      rawScores, dot, features, engineer, argmaxPair, max_def]
  exact ⟨hwf, hok, C1_simplex_and_argmax wSnap wValidSample wResult hwf hok⟩

/-- C2 witness: the sample with N = 300 is invalid and rejected. -/
theorem C2_witness :
    ¬ rawSampleValid wInvalidSample ∧
    (∃ f, validate wInvalidSample = some f ∧
      fieldOutOfRange wInvalidSample f ∧
      ∀ store : Option ModelSnapshot,
        predict store wInvalidSample =
          Except.error (ServiceError.validationError f)) := by
  have hinv : ¬ rawSampleValid wInvalidSample := by
    norm_num [rawSampleValid, wInvalidSample]
  exact ⟨hinv, C2_out_of_range_rejected wInvalidSample hinv⟩

/-- C3 witness: a batch of 101 items trips the ceiling. -/
theorem C3_witness :
    MAX_BATCH_SIZE < wBatch101.length ∧
    predictBatch (some wSnap) wBatch101 =
      Except.error (ServiceError.batchTooLargeError wBatch101.length) := by
  have hlen : MAX_BATCH_SIZE < wBatch101.length := by
    simp [wBatch101, MAX_BATCH_SIZE]
  exact ⟨hlen, (C3_batch_ceiling (some wSnap) wBatch101).1 hlen⟩

/-- C4 witness: a six-item batch (invalid item at index 2) stays within the
bound and yields one independent outcome per index. -/
theorem C4_witness :
    wBatch6.length ≤ MAX_BATCH_SIZE ∧
    (∃ rs, predictBatch (some wSnap) wBatch6 = Except.ok rs ∧
      ∀ i : Nat, rs[i]? = (wBatch6[i]?).map (predict (some wSnap))) := by
  have hlen : wBatch6.length ≤ MAX_BATCH_SIZE := by
    simp [wBatch6, MAX_BATCH_SIZE]
  exact ⟨hlen, C4_per_item_isolation (some wSnap) wBatch6 hlen⟩

/-- C5 witness: repeated engineering of the example sample agrees. -/
theorem C5_witness :
    wValidSample.N = wValidSample.N ∧
    wValidSample.rainfall = wValidSample.rainfall ∧
    engineer wValidSample = engineer wValidSample :=
  ⟨rfl, rfl, C5_engineer_deterministic wValidSample wValidSample
    rfl rfl rfl rfl rfl rfl rfl⟩

/-- C6 witness: a candidate at accuracy 1/2 against threshold 9/10 fails
validation and leaves the published snapshot untouched. -/
theorem C6_witness :
    wWeakCand.accuracy < wIdleState.minAccuracy ∧
    (currentModel (runRetrainJob wIdleState wWeakCand) =
        currentModel wIdleState ∧
      (runRetrainJob wIdleState wWeakCand).phase = JobPhase.Failed) := by
  have hacc : wWeakCand.accuracy < wIdleState.minAccuracy := by
    norm_num [wWeakCand, wIdleState]
  exact ⟨hacc, C6_failed_retrain_preserves_store wIdleState wWeakCand hacc⟩

/-- C7 witness: a request while `wBusyState` is `Training` is rejected. -/
theorem C7_witness :
    wBusyState.phase = JobPhase.Training ∧
    (requestRetrain wBusyState =
        Except.error ServiceError.retrainInProgressError ∧
      errorStatus ServiceError.retrainInProgressError = 409) :=
  ⟨rfl, C7_retrain_mutex wBusyState rfl⟩

/-- C9 witness: a body with a non-empty `predicted_crop` string is passed
through unchanged with HTTP 200. -/
theorem C9_witness :
    jsTruthyOpt (getField wGoodBody "predicted_crop") = true ∧
    recommendHandler (UpstreamOutcome.success wGoodBody) =
      { status := 200, body := wGoodBody } :=
  ⟨rfl, C9_success_passthrough wGoodBody rfl⟩

/-- C10 witness: a body without the `predicted_crop` key yields the 500
response with the thrown error's message in `details`. -/
theorem C10_witness :
    (getField wNoKeyBody "predicted_crop" = none ∨
      wNoKeyBody = JVal.jnull ∨ wNoKeyBody = JVal.jstr "") ∧
    (recommendHandler (UpstreamOutcome.success wNoKeyBody) =
        { status := 500,
          body := errBody "An internal server error occurred." missingKeyMsg } ∧
      getField (recommendHandler (UpstreamOutcome.success wNoKeyBody)).body
        "details" = some (JVal.jstr missingKeyMsg)) :=
  ⟨Or.inl rfl, C10_missing_key_500 wNoKeyBody (Or.inl rfl)⟩

end Crop
